import Mathlib

/-!
# A verification development for the FS17 Mod List repository

Shallow embedding of the core logic of `fs17.py`, `FS17_Mod_List.py` and
`tiny_html.py`:

* Python strings are modelled as `List Char` (`PyStr`) where character-level
  induction is needed (the XML repair function `Mod._fix_xml` and the HTML
  serializer `Tag.html` / `Tag.to_str`), and as Lean `String` elsewhere
  (tag names, attribute keys and values, localisation text).  The helpers
  `pyRepl`, `pyStartsWith`, `pyEndsWith`, `pyStrip` model the Python string
  methods `replace`, `startswith`, `endswith`, `strip` (`replace` replaces all
  non-overlapping occurrences left to right; the empty-pattern case, which
  Python treats specially, never occurs in the source).
* `xml.etree.ElementTree` elements are modelled by `Elem` (tag, attribute
  list with unique keys, optional text, child list).  `Elem.find` models
  `node.find('./name')`, `Elem.findall`/`Elem.find2` model the two-step paths
  `node.findall('./a/b')` and `node.find('./a/b')` used by the source.
* Exceptions are modelled by `Except PyErr`.  `PyErr.recursionError` stands for
  nontermination of the source's unbounded recursion/loops; all recursive
  models take a fuel parameter and every statement below holds for every
  sufficient fuel.
* External collaborators (the zip container, text decoding, XML parsing of an
  archive member, the Pillow image pipeline, the filesystem) are abstracted:
  an archive member is a `ZEntry` carrying the outcome of the external
  decode/parse steps, and the icon pipeline's success is represented by the
  `Attempt` (archive or filesystem probe) that produced the bytes.
-/

namespace FS17

/-- Python strings, modelled as their character sequences. -/
abbrev PyStr := List Char

/-- ASCII whitespace as Python's `\s` / `str.strip` recognise it. -/
def pyWs (c : Char) : Bool :=
  c = ' ' || c = '\t' || c = '\n' || c = '\r' || c = '\x0b' || c = '\x0c'

/-- Worker for `pyRepl`, structurally recursive on a fuel that starts at the
length of the string, which is always sufficient. -/
def pyReplGo (p rep : PyStr) : Nat → PyStr → PyStr
  | 0, l => l
  | _+1, [] => []
  | fuel+1, c :: rest =>
    match p with
    | [] => c :: rest
    | q :: qs =>
      if (q :: qs) <+: (c :: rest) then rep ++ pyReplGo p rep fuel (rest.drop qs.length)
      else c :: pyReplGo p rep fuel rest

/-- Python `s.replace(p, rep)` on character lists: replace every
non-overlapping occurrence of `p`, scanning left to right. -/
def pyRepl (s p rep : PyStr) : PyStr := pyReplGo p rep s.length s

/-- Python `s.replace(p, rep)` on strings. -/
def pyReplace (s p rep : String) : String := ⟨pyRepl s.data p.data rep.data⟩

/-- Python `s.startswith(p)`. -/
def pyStartsWith (s p : String) : Bool := p.data.isPrefixOf s.data

/-- Python `s.endswith(p)`. -/
def pyEndsWith (s p : String) : Bool := p.data.isSuffixOf s.data

/-- Python `s.strip()`. -/
def pyStrip (s : String) : String :=
  ⟨((s.data.dropWhile pyWs).reverse.dropWhile pyWs).reverse⟩

/-!
## `Mod._fix_xml` (fs17.py lines 129-164)

An ordered chain of literal replacements followed by two `re.sub` passes.
The two regular expressions are embedded as executable scans with Python
`re` semantics (`MULTILINE`/`DOTALL` flags, lazy `(.*?)`, greedy `\s*`,
left-to-right non-overlapping matches, scan resuming after each match).
-/

/-- Closing search of `re.sub(r'<!--(.*?)-->', '<!-- -->', xml)`: `.` does not
match a newline, so starting right after `<!--` the lazy `(.*?)` ends at the
first `-->` reachable without crossing a newline; returns the remainder after
that `-->`, or `none` when the match attempt fails. -/
def findCommentClose : PyStr → Option PyStr
  | [] => none
  | c :: rest =>
    if "-->".data <+: (c :: rest) then some ((c :: rest).drop 3)
    else if c = '\n' then none
    else findCommentClose rest

/-- Worker for `fixComments`; on a failed match attempt the regex engine
advances one position, on success it resumes after the replaced region. -/
def fixCommentsGo : Nat → PyStr → PyStr
  | 0, l => l
  | _+1, [] => []
  | fuel+1, c :: rest =>
    if "<!--".data <+: (c :: rest) then
      match findCommentClose ((c :: rest).drop 4) with
      | some r => "<!-- -->".data ++ fixCommentsGo fuel r
      | none => c :: fixCommentsGo fuel rest
    else c :: fixCommentsGo fuel rest

/-- `re.sub(r'<!--(.*?)-->', '<!-- -->', xml)`. -/
def fixComments (l : PyStr) : PyStr := fixCommentsGo l.length l

/-- End of the `\s*$` tail of the vehicleTypeConfigurations pattern: consume
the longest whitespace run that still lets `$` (MULTILINE) match, i.e. stop at
the end of the string or just before a newline; greedy, so the latest such
stop wins.  Returns the remainder at the match end, `none` if `$` can never
match. -/
def wsEnd : PyStr → Option PyStr
  | [] => some []
  | c :: rest =>
    if c = '\n' then
      match wsEnd rest with
      | some r => some r
      | none => some ('\n' :: rest)
    else if pyWs c then wsEnd rest
    else none

/-- Search for `^-->\s*$` (MULTILINE, after a lazy DOTALL `(.*?)`): the first
position right after a newline where `-->` matches and the `\s*$` tail can
close the match; returns the remainder after the whole match. -/
def vtcClose : PyStr → Option PyStr
  | [] => none
  | c :: rest =>
    if c = '\n' then
      if "-->".data <+: rest then
        match wsEnd (rest.drop 3) with
        | some r => some r
        | none => vtcClose rest
      else vtcClose rest
    else vtcClose rest

/-- The opening literal of the comment-shenanigans pattern. -/
def vtcOpen : PyStr := "<!--<vehicleTypeConfigurations>".data

/-- The replacement text of the comment-shenanigans substitution. -/
def nineNewlines : PyStr := "\n\n\n\n\n\n\n\n\n".data

/-- Worker for `fixVtc`: scan for the `^`-anchored opening literal (MULTILINE:
string start or right after a newline), splice in the replacement, and resume
scanning after the match; the anchor state after a match is determined by the
last consumed character of the original string. -/
def fixVtcGo : Nat → Bool → PyStr → PyStr
  | 0, _, l => l
  | _+1, _, [] => []
  | fuel+1, atStart, c :: rest =>
    if atStart ∧ vtcOpen <+: (c :: rest) then
      match vtcClose ((c :: rest).drop vtcOpen.length) with
      | some r =>
        let consumed := (c :: rest).take ((c :: rest).length - r.length)
        nineNewlines ++ fixVtcGo fuel (consumed.getLastD ' ' = '\n') r
      | none => c :: fixVtcGo fuel (c = '\n') rest
    else c :: fixVtcGo fuel (c = '\n') rest

/-- `re.sub(r'^<!--<vehicleTypeConfigurations>(.*?)^-->\s*$', '\n'*9, xml,
flags=re.MULTILINE | re.DOTALL)`. -/
def fixVtc (l : PyStr) : PyStr := fixVtcGo l.length true l

/-- The character-list core of `Mod._fix_xml`: the source's replacements in
source order, then the two `re.sub` passes. -/
def fixXmlChars (s : PyStr) : PyStr :=
  let s := pyRepl s " & ".data " and ".data
  let s := pyRepl s "Fill--and".data "Fill-and".data
  let s := pyRepl s "partOfEconomy=\"true\"".data "partOfEconomy=\"true\" ".data
  let s := pyRepl s "\"configFilename=".data "\" configFilename=".data
  let s := pyRepl s "\"baleTypesDirectory=".data "\" baleTypesDirectory=".data
  let s := pyRepl s "Bressel&Lade".data "Bressel+Lade".data
  let s := pyRepl s "and enjoy.]]></de>".data "and enjoy.</de>".data
  let s := pyRepl s "\"endTransLimit=\"".data "\" endTransLimit=\"".data
  let s := pyRepl s "\"translationActive=\"".data "\" translationActive=\"".data
  let s := pyRepl s "\"scaleActive=\"".data "\" scaleActive=\"".data
  let s := pyRepl s "\"playSound=\"".data "\" playSound=\"".data
  let s := pyRepl s "\"rotationActive=\"".data "\" rotationActive=\"".data
  let s := pyRepl s "\"visibilityActive=\"".data "\" visibilityActive=\"".data
  let s := pyRepl s "\"index=\"".data "\" index=\"".data
  let s := pyRepl s "<function>https://www.facebook.com/ETA-La-Marchoise-318371215013344/?ref=ts&fref=ts</function>".data "".data
  let s := pyRepl s "-- aanimazioni tubi --".data " aanimazioni tubi ".data
  let s := fixVtc s
  let s := fixComments s
  s

/-- `Mod._fix_xml(xml)`, the descriptor repair function. -/
def fix_xml (s : String) : String := ⟨fixXmlChars s.data⟩

/-!
## The element model (`xml.etree.ElementTree` as used by the source)
-/

/-- A parsed XML element: tag, attribute mapping (unique keys, modelled as an
association list), optional text, ordered children. -/
inductive Elem where
  | mk (tag : String) (attrib : List (String × String)) (text : Option String)
      (children : List Elem)

/-- The element's tag. -/
def Elem.tag : Elem → String
  | .mk t _ _ _ => t

/-- The element's attribute mapping. -/
def Elem.attrib : Elem → List (String × String)
  | .mk _ a _ _ => a

/-- The element's text (`None` when absent). -/
def Elem.text : Elem → Option String
  | .mk _ _ t _ => t

/-- The element's children. -/
def Elem.children : Elem → List Elem
  | .mk _ _ _ c => c

/-- `node.find('./name')`: the first direct child with the given tag. -/
def Elem.find (e : Elem) (name : String) : Option Elem :=
  (Elem.children e).find? (fun c => Elem.tag c == name)

/-- `node.findall('./a/b')`: all grandchildren reached by tag `a` then tag
`b`, in document order. -/
def Elem.findall (e : Elem) (a b : String) : List Elem :=
  (((Elem.children e).filter (fun c => Elem.tag c == a)).map
    (fun c => (Elem.children c).filter (fun d => Elem.tag d == b))).flatten

/-- `node.find('./a/b')`: the first match of the two-step path. -/
def Elem.find2 (e : Elem) (a b : String) : Option Elem :=
  (Elem.findall e a b).head?

/-- `node.attrib[k]` as an optional lookup (`none` models the `KeyError`
case, raised or tested with `k in node.attrib` by the caller). -/
def Elem.getAttr (e : Elem) (k : String) : Option String :=
  ((Elem.attrib e).find? (fun p => p.1 == k)).map (fun p => p.2)

/-- Equality of modelled outcomes is decidable. -/
instance {ε α : Type} [DecidableEq ε] [DecidableEq α] : DecidableEq (Except ε α)
  | .error a, .error b =>
    if h : a = b then isTrue (by rw [h]) else isFalse (by intro hh; cases hh; exact h rfl)
  | .error _, .ok _ => isFalse (by intro hh; cases hh)
  | .ok _, .error _ => isFalse (by intro hh; cases hh)
  | .ok a, .ok b =>
    if h : a = b then isTrue (by rw [h]) else isFalse (by intro hh; cases hh; exact h rfl)

/-- The Python exceptions raised by the modelled code paths.
`recursionError` stands for nontermination (exhausted fuel). -/
inductive PyErr where
  | attributeError
  | keyError
  | unicodeDecodeError
  | xmlParseError
  | recursionError
  deriving DecidableEq

/-- A member of the mod's zip archive, abstracted to the outcome of the
external decode/parse steps performed on it by the source:
`xmlFile e` decodes and (after repair where the source repairs) parses to `e`;
`badBytes` is read but `bytes.decode()` raises; `badXml` decodes but
`ET.fromstring` raises; `rawFile` is a non-text member (icons), for which only
existence matters. -/
inductive ZEntry where
  | xmlFile (e : Elem)
  | badBytes
  | badXml
  | rawFile

/-- The state a `Mod` object carries while `load` runs: the parsed
`modDesc.xml` root, the open zip archive, the reachable filesystem paths
(`os.path.exists`), and the joined `GAME_DIR/data/store` path. -/
structure Mod where
  modDesc : Elem
  zip : List (String × ZEntry)
  fsFiles : List String
  data_store : String

/-- `self.ZipFile.read(name)` combined with the follow-up decode/parse
outcome; `none` models the `KeyError` raised on a missing member. -/
def Mod.zipEntry (m : Mod) (name : String) : Option ZEntry :=
  ((m.zip).find? (fun p => p.1 == name)).map (fun p => p.2)

/-!
## The localisation resolver (`Mod.l10n` / `Mod._l10n`, fs17.py lines 245-282)
-/

/-- The inline-table scan of `Mod._l10n`:
`for l10n in l10ns: if l10n.attrib['name'] == to_find: return self.l10n(l10n)`.
Stops at the first entry whose `name` attribute equals the key; raises
`KeyError` if an entry without a `name` attribute is reached first;
`ok none` when the loop falls through. -/
def scanByName (to_find : String) : List Elem → Except PyErr (Option Elem)
  | [] => .ok none
  | l :: rest =>
    match Elem.getAttr l "name" with
    | none => .error .keyError
    | some v => if v = to_find then .ok (some l) else scanByName to_find rest

/-- The auxiliary-document scan of `Mod._l10n`:
`for t in texts: if t.attrib['name'] == to_find: return t.attrib['text']`.
Raises `KeyError` on a missing `name` (or, at the match, a missing `text`)
attribute; `ok none` when the loop falls through. -/
def scanAuxTexts (to_find : String) : List Elem → Except PyErr (Option String)
  | [] => .ok none
  | t :: rest =>
    match Elem.getAttr t "name" with
    | none => .error .keyError
    | some v =>
      if v = to_find then
        match Elem.getAttr t "text" with
        | none => .error .keyError
        | some tv => .ok (some tv)
      else scanAuxTexts to_find rest

mutual

/-- `Mod.l10n(node)`: pick the first present language child (`en`, `de`,
`fr`), fall back to the node's own text, or to `''` when the node is `None`;
a `None` candidate text makes `result.startswith('$l10n_')` raise
`AttributeError`; a `$l10n_` prefix dispatches to `Mod._l10n`.  The fuel
bounds the unbounded mutual recursion of the source. -/
def Mod.l10n : Nat → Mod → Option Elem → Except PyErr String
  | 0, _, _ => .error .recursionError
  | fuel+1, m, node =>
    let sub : Option Elem :=
      match node with
      | none => none
      | some n =>
        match Elem.find n "en" with
        | some s => some s
        | none =>
          match Elem.find n "de" with
          | some s => some s
          | none => Elem.find n "fr"
    let result : Option String :=
      match sub with
      | some s => Elem.text s
      | none =>
        match node with
        | some n => Elem.text n
        | none => some ""
    match result with
    | none => .error .attributeError
    | some r =>
      if pyStartsWith r "$l10n_" then Mod.l10n_ind fuel m r else .ok r

/-- `Mod._l10n(text)`: strip the `$l10n_` prefix, search the inline
`./l10n/text` table (recursively resolving a hit), then — when the `l10n`
element declares a `filenamePrefix` — read and parse `prefix + '_en.xml'` from
the archive (a missing member raises `KeyError`, a decode or parse failure
raises, none of these is caught) and search its `./texts/text` entries,
returning the matching `text` attribute; with no match anywhere, return the
original key text unchanged. -/
def Mod.l10n_ind : Nat → Mod → String → Except PyErr String
  | 0, _, _ => .error .recursionError
  | fuel+1, m, text =>
    let to_find := pyReplace text "$l10n_" ""
    match scanByName to_find (Elem.findall m.modDesc "l10n" "text") with
    | .error e => .error e
    | .ok (some l) => Mod.l10n fuel m (some l)
    | .ok none =>
      match Elem.find m.modDesc "l10n" with
      | none => .ok text
      | some l =>
        match Elem.getAttr l "filenamePrefix" with
        | none => .ok text
        | some p =>
          match Mod.zipEntry m (p ++ "_en.xml") with
          | none => .error .keyError
          | some ZEntry.badBytes => .error .unicodeDecodeError
          | some ZEntry.rawFile => .error .unicodeDecodeError
          | some ZEntry.badXml => .error .xmlParseError
          | some (ZEntry.xmlFile ax) =>
            match scanAuxTexts to_find (Elem.findall ax "texts" "text") with
            | .error e => .error e
            | .ok (some v) => .ok v
            | .ok none => .ok text

end

/-- `Mod._get_mod_title` (fs17.py lines 238-242): resolve `./title` and fall
back to `'UNKNOWN'` on an empty result. -/
def Mod.get_mod_title (fuel : Nat) (m : Mod) : Except PyErr String :=
  match Mod.l10n fuel m (Elem.find m.modDesc "title") with
  | .error e => .error e
  | .ok t => .ok (if t = "" then "UNKNOWN" else t)

/-- `get_mod_title` of FS17_Mod_List.py (lines 206-219): the script-level
variant with its own fallback chain; `none` models returning Python `None`
(a present language child without text). -/
def get_mod_title_script (modDesc : Elem) : Option String :=
  match Elem.find modDesc "title" with
  | none => some "NONE"
  | some title =>
    match Elem.find title "en" with
    | some d => Elem.text d
    | none =>
      match Elem.find title "de" with
      | some d => Elem.text d
      | none =>
        match Elem.find title "fr" with
        | some d => Elem.text d
        | none => some "UNKNOWN"

/-!
## The icon locator (`Mod._find_icon` / `Mod.get_icon`, fs17.py lines 168-234)
-/

/-- One probe made by the icon locator: a zip-archive read or a filesystem
read of the given name. -/
inductive Attempt where
  | arch (name : String)
  | fs (name : String)
  deriving DecidableEq

/-- `Mod.get_icon(zip, icon_name, IMG_SIZE)`: read the name from the zip
archive, else from the local filesystem, else raise `KeyError`.  The Pillow
decode/resize/base64 pipeline is external; success is represented by the
attempt that produced the bytes.  Also returns the probe trace. -/
def get_icon (archNames fsNames : List String) (icon_name : String) :
    List Attempt × Except PyErr Attempt :=
  if archNames.contains icon_name then
    ([Attempt.arch icon_name], .ok (Attempt.arch icon_name))
  else if fsNames.contains icon_name then
    ([Attempt.arch icon_name, Attempt.fs icon_name], .ok (Attempt.fs icon_name))
  else
    ([Attempt.arch icon_name, Attempt.fs icon_name], .error .keyError)

/-- The `while True` retry loop of `Mod._find_icon`: try `get_icon`; on
`KeyError`, if the name ends in `.png` substitute `.dds` and retry, else
re-raise.  The fuel bounds the unbounded loop; two units always suffice
because the substituted name no longer ends in `.png`. -/
def find_icon_loop (archNames fsNames : List String) :
    Nat → String → List Attempt × Except PyErr Attempt
  | 0, _ => ([], .error .recursionError)
  | fuel+1, icon_file =>
    match get_icon archNames fsNames icon_file with
    | (t, .ok a) => (t, .ok a)
    | (t, .error _) =>
      if pyEndsWith icon_file ".png" then
        let next := pyReplace icon_file ".png" ".dds"
        let (t2, r2) := find_icon_loop archNames fsNames fuel next
        (t ++ t2, r2)
      else (t, .error .keyError)

/-- `Mod._find_icon`: read `./iconFilename` (with optional `en` child),
rewrite the `$data/store/` token to the game's store directory, then run the
retry loop.  A missing element or missing text raises `AttributeError`. -/
def Mod.find_icon (fuel : Nat) (m : Mod) : Except PyErr Attempt :=
  match Elem.find m.modDesc "iconFilename" with
  | none => .error .attributeError
  | some icon_elem0 =>
    let icon_elem :=
      match Elem.find icon_elem0 "en" with
      | some e => e
      | none => icon_elem0
    match Elem.text icon_elem with
    | none => .error .attributeError
    | some icon0 =>
      let icon1 := pyReplace icon0 "$data/store/" (m.data_store ++ "/")
      (find_icon_loop (m.zip.map Prod.fst) m.fsFiles fuel icon1).2

/-!
## Store items and `Mod.load` (fs17.py lines 55-123, 288-309)
-/

/-- A store item (class `Item`), as populated by `Item.__init__`. -/
structure Item where
  category : String
  brand : String
  name : String
  price : Option String
  dailyUpkeep : Option String
  deriving DecidableEq

/-- `Item.__init__(mod, xml)`: localise category (uncaught failures
propagate), brand (`AttributeError` caught, giving `''`), name; `price` and
`dailyUpkeep` default to `'0'` when their element is absent
(`AttributeError` caught) and otherwise keep the element's text, which may be
`None`. -/
def Item.init (fuel : Nat) (m : Mod) (xml : Elem) : Except PyErr Item :=
  match Mod.l10n fuel m (Elem.find2 xml "storeData" "category") with
  | .error e => .error e
  | .ok category =>
    match
      (match Mod.l10n fuel m (Elem.find2 xml "storeData" "brand") with
       | .error .attributeError => .ok ""
       | .error e => .error e
       | .ok v => .ok v : Except PyErr String) with
    | .error e => .error e
    | .ok brand =>
      match Mod.l10n fuel m (Elem.find2 xml "storeData" "name") with
      | .error e => .error e
      | .ok name =>
        let price : Option String :=
          match Elem.find2 xml "storeData" "price" with
          | none => some "0"
          | some p => Elem.text p
        let dailyUpkeep : Option String :=
          match Elem.find2 xml "storeData" "dailyUpkeep" with
          | none => some "0"
          | some p => Elem.text p
        .ok { category := category, brand := brand, name := name,
              price := price, dailyUpkeep := dailyUpkeep }

/-- The store-item loop of `Mod.load` (lines 101-121): for each listed name,
a failed read (missing member), a failed decode, or a failed parse is caught,
a warning is printed (I/O, not modelled) and the item is skipped; otherwise
the `Item` is constructed (failures there are not caught) and appended. -/
def Mod.loadStoreItems (fuel : Nat) (m : Mod) : List String → Except PyErr (List Item)
  | [] => .ok []
  | n :: rest =>
    match Mod.zipEntry m n with
    | none => Mod.loadStoreItems fuel m rest
    | some ZEntry.badBytes => Mod.loadStoreItems fuel m rest
    | some ZEntry.rawFile => Mod.loadStoreItems fuel m rest
    | some ZEntry.badXml => Mod.loadStoreItems fuel m rest
    | some (ZEntry.xmlFile e) =>
      match Item.init fuel m e with
      | .error err => .error err
      | .ok it =>
        match Mod.loadStoreItems fuel m rest with
        | .error err => .error err
        | .ok items => .ok (it :: items)

/-- `[item.attrib['xmlFilename'] for item in findall('./storeItems/storeItem')]`:
a missing `xmlFilename` attribute raises `KeyError`. -/
def storeItemNames : List Elem → Except PyErr (List String)
  | [] => .ok []
  | it :: rest =>
    match Elem.getAttr it "xmlFilename" with
    | none => .error .keyError
    | some v =>
      match storeItemNames rest with
      | .error e => .error e
      | .ok vs => .ok (v :: vs)

/-- The record `Mod.load` leaves in the object's fields. -/
structure ModRecord where
  has_maps : Bool
  title : String
  icon : Attempt
  author : Option String
  version : Option String
  description : String
  multiplayer : Bool
  store_items : List Item

/-- `Mod.load` after the descriptor itself has been read, repaired and parsed
(failures there abort before any field is set): detect maps, resolve the
title, locate the icon, read author and version (`find(...).text` raises
`AttributeError` on an absent element), build the description
(`AttributeError` on an absent element or absent text), read the multiplayer
flag (absent declarations degrade to `False`), and load the store items. -/
def Mod.load (fuel : Nat) (m : Mod) : Except PyErr ModRecord :=
  let has_maps := (Elem.find m.modDesc "maps").isSome
  match Mod.get_mod_title fuel m with
  | .error e => .error e
  | .ok title =>
    match Mod.find_icon fuel m with
    | .error e => .error e
    | .ok icon =>
      match Elem.find m.modDesc "author" with
      | none => .error .attributeError
      | some a =>
        match Elem.find m.modDesc "version" with
        | none => .error .attributeError
        | some v =>
          match
            (match Elem.find m.modDesc "description" with
             | none => .error .attributeError
             | some d0 =>
               let d := match Elem.find d0 "en" with
                 | some e => e
                 | none => d0
               match Elem.text d with
               | none => .error .attributeError
               | some t => .ok (pyReplace (pyStrip t) "\n" "<br>\n")
              : Except PyErr String) with
          | .error e => .error e
          | .ok description =>
            let multiplayer :=
              match Elem.find m.modDesc "multiplayer" with
              | none => false
              | some mp =>
                match Elem.getAttr mp "supported" with
                | none => false
                | some s => s == "true"
            match storeItemNames (Elem.findall m.modDesc "storeItems" "storeItem") with
            | .error e => .error e
            | .ok names =>
              match Mod.loadStoreItems fuel m names with
              | .error e => .error e
              | .ok items =>
                .ok { has_maps := has_maps, title := title, icon := icon,
                      author := Elem.text a, version := Elem.text v,
                      description := description, multiplayer := multiplayer,
                      store_items := items }

/-!
## The markup tree (`Tag` of tiny_html.py; `Tag`/`to_str` of FS17_Mod_List.py
is byte-for-byte the same algorithm, so one model covers both)
-/

/-- `INDENT` of tiny_html.py / FS17_Mod_List.py (one space). -/
def INDENT : PyStr := [' ']

/-- `LINEBR` of tiny_html.py / FS17_Mod_List.py (one newline). -/
def LINEBR : PyStr := ['\n']

/-- An HTML tag: name, attribute mapping (insertion-ordered association list
with unique keys, as a Python dict), optional text, ordered children. -/
inductive Tag where
  | mk (name : PyStr) (attributes : List (PyStr × PyStr)) (text : Option PyStr)
      (children : List Tag)

/-- The attribute segment of `Tag.html`:
`for n in sorted(self.attributes): s += ' ' + n + '="' + self.attributes[n] + '"'`
(keys sorted lexicographically, values looked up in the dict, no escaping). -/
def attrsOut (attributes : List (PyStr × PyStr)) (s : PyStr) : PyStr :=
  (List.insertionSort (fun a b : PyStr => a ≤ b) (attributes.map Prod.fst)).foldl
    (fun acc n =>
      acc ++ [' '] ++ n ++ ['=', '"']
        ++ (((attributes.find? (fun p => p.1 == n)).map (fun p => p.2)).getD [])
        ++ ['"'])
    s

mutual

/-- `Tag.html(indent)` of tiny_html.py (= `Tag.to_str(indent)` of
FS17_Mod_List.py): opening tag with sorted attributes; an element with text
or children renders inline or multi-line (children, or a newline in the text,
force multi-line) and is closed with `</name>`; an element with neither is
self-closed, except the name `br`, which gets no slash. -/
def Tag.html : Tag → PyStr → PyStr
  | .mk name attributes text children, indent =>
    let s := indent ++ ['<'] ++ name
    let s := if 0 < attributes.length then attrsOut attributes s else s
    if text.isSome || !children.isEmpty then
      let s := s ++ ['>']
      let has_children := !children.isEmpty
      let multi_line := has_children ||
        (match text with
         | some t => t.contains '\n'
         | none => false)
      let s := if multi_line then s ++ LINEBR else s
      let s :=
        match text with
        | some t =>
          let s := if multi_line then s ++ indent ++ INDENT else s
          let s := s ++ t
          if multi_line then s ++ LINEBR else s
        | none => s
      let s := s ++ Tag.htmlList children (indent ++ INDENT)
      let s := if multi_line then s ++ indent else s
      s ++ ['<', '/'] ++ name ++ ['>'] ++ LINEBR
    else
      let s := if name ≠ ['b', 'r'] then s ++ ['/'] else s
      s ++ ['>'] ++ LINEBR

/-- `for child in self.children: s += child.html(indent + INDENT)`. -/
def Tag.htmlList : List Tag → PyStr → PyStr
  | [], _ => []
  | c :: cs, indent => Tag.html c indent ++ Tag.htmlList cs indent

end

mutual

/-- Structural identity of markup trees up to attribute insertion order:
same name, attribute lists that are permutations of each other (the same
dict built in a possibly different insertion order), same text, and
pointwise equivalent children. -/
inductive TagEquiv : Tag → Tag → Prop where
  | mk {name : PyStr} {a₁ a₂ : List (PyStr × PyStr)} {text : Option PyStr}
      {c₁ c₂ : List Tag} :
      a₁.Perm a₂ → TagEquivList c₁ c₂ →
      TagEquiv (.mk name a₁ text c₁) (.mk name a₂ text c₂)

/-- Pointwise `TagEquiv` on child lists. -/
inductive TagEquivList : List Tag → List Tag → Prop where
  | nil : TagEquivList [] []
  | cons {t₁ t₂ : Tag} {l₁ l₂ : List Tag} :
      TagEquiv t₁ t₂ → TagEquivList l₁ l₂ → TagEquivList (t₁ :: l₁) (t₂ :: l₂)

end

mutual

/-- The dict invariant: attribute keys are unique at every node (Python dicts
cannot hold duplicate keys). -/
inductive Tag.WF : Tag → Prop where
  | mk {name : PyStr} {attributes : List (PyStr × PyStr)} {text : Option PyStr}
      {children : List Tag} :
      (attributes.map Prod.fst).Nodup → Tag.WFList children →
      Tag.WF (.mk name attributes text children)

/-- `Tag.WF` on every member of a child list. -/
inductive Tag.WFList : List Tag → Prop where
  | nil : Tag.WFList []
  | cons {t : Tag} {l : List Tag} : Tag.WF t → Tag.WFList l → Tag.WFList (t :: l)

end

/-!
## Helper lemmas
-/

/-- In association lists with unique keys, `find?` by key is stable under
permutation of the entries. -/
theorem find?_eq_of_perm {α β : Type} [BEq α] [LawfulBEq α] {l₁ l₂ : List (α × β)}
    (hp : l₁.Perm l₂) (hnd : (l₁.map Prod.fst).Nodup) (k : α) :
    l₁.find? (fun p => p.1 == k) = l₂.find? (fun p => p.1 == k) := by
  induction hp with
  | nil => rfl
  | cons a p ih =>
    cases h : (a.1 == k) <;> simp only [List.find?, h]
    exact ih ((List.nodup_cons.mp (by simpa only [List.map_cons] using hnd)).2)
  | swap a b l =>
    have hmem := (List.nodup_cons.mp (by simpa only [List.map_cons] using hnd)).1
    have hne : b.1 ≠ a.1 := fun hh => hmem (by rw [hh]; exact List.mem_cons_self _ _)
    cases ha : (a.1 == k) <;> cases hb : (b.1 == k) <;>
      simp only [List.find?, ha, hb]
    rw [beq_iff_eq] at ha hb
    exact absurd (hb.trans ha.symm) hne
  | trans h₁ h₂ ih₁ ih₂ =>
    exact (ih₁ hnd).trans (ih₂ (((h₁.map Prod.fst).nodup_iff).mp hnd))

/-- The sorted key list of a dict does not depend on insertion order. -/
theorem sortedKeys_eq_of_perm {l₁ l₂ : List (PyStr × PyStr)} (hp : l₁.Perm l₂) :
    List.insertionSort (fun a b : PyStr => a ≤ b) (l₁.map Prod.fst)
      = List.insertionSort (fun a b : PyStr => a ≤ b) (l₂.map Prod.fst) := by
  exact @List.eq_of_perm_of_sorted PyStr (fun a b : PyStr => a ≤ b) inferInstance _ _
    ((List.perm_insertionSort _ _).trans
      ((hp.map Prod.fst).trans (List.perm_insertionSort _ _).symm))
    (List.sorted_insertionSort _ _) (List.sorted_insertionSort _ _)

/-- The attribute segment of the serializer is insertion-order independent
when keys are unique. -/
theorem attrsOut_perm {a₁ a₂ : List (PyStr × PyStr)} (hp : a₁.Perm a₂)
    (hnd : (a₁.map Prod.fst).Nodup) (s : PyStr) :
    attrsOut a₁ s = attrsOut a₂ s := by
  unfold attrsOut
  rw [sortedKeys_eq_of_perm hp]
  have hf : (fun (acc n : PyStr) =>
      acc ++ [' '] ++ n ++ ['=', '"']
        ++ (((a₁.find? (fun p => p.1 == n)).map (fun p => p.2)).getD []) ++ ['"'])
      = (fun (acc n : PyStr) =>
      acc ++ [' '] ++ n ++ ['=', '"']
        ++ (((a₂.find? (fun p => p.1 == n)).map (fun p => p.2)).getD []) ++ ['"']) := by
    funext acc n
    rw [find?_eq_of_perm hp hnd n]
  rw [hf]

/-- Pointwise-equivalent child lists are both empty or both not. -/
theorem TagEquivList.isEmpty_eq {l₁ l₂ : List Tag} (h : TagEquivList l₁ l₂) :
    l₁.isEmpty = l₂.isEmpty := by
  cases h <;> rfl

mutual

/-- Serialization depends only on the tree structure and the attribute
mapping, not on attribute insertion order. -/
theorem Tag.html_equiv_aux : ∀ (t₁ t₂ : Tag), Tag.WF t₁ → TagEquiv t₁ t₂ →
    ∀ indent, Tag.html t₁ indent = Tag.html t₂ indent
  | .mk n a₁ tx c₁, t₂, hwf, he, indent => by
    cases he with
    | @mk _ _ a₂ _ _ c₂ hperm hch =>
      cases hwf with
      | mk hnd hwfl =>
        have hlen : a₁.length = a₂.length := hperm.length_eq
        have hemp : c₁.isEmpty = c₂.isEmpty := hch.isEmpty_eq
        have hattr : ∀ s, attrsOut a₁ s = attrsOut a₂ s :=
          fun s => attrsOut_perm hperm hnd s
        have hlist : ∀ ind, Tag.htmlList c₁ ind = Tag.htmlList c₂ ind :=
          Tag.htmlList_equiv_aux c₁ c₂ hwfl hch
        simp only [Tag.html, hlen, hemp, hattr, hlist]

/-- List version of `Tag.html_equiv_aux`. -/
theorem Tag.htmlList_equiv_aux : ∀ (l₁ l₂ : List Tag), Tag.WFList l₁ →
    TagEquivList l₁ l₂ → ∀ indent, Tag.htmlList l₁ indent = Tag.htmlList l₂ indent
  | [], _, _, he, indent => by cases he; rfl
  | t₁ :: l₁, _, hwfl, he, indent => by
    cases he with
    | @cons _ t₂ _ l₂ ht hl =>
      cases hwfl with
      | cons hwf hwfl' =>
        simp only [Tag.htmlList]
        rw [Tag.html_equiv_aux t₁ t₂ hwf ht indent,
          Tag.htmlList_equiv_aux l₁ l₂ hwfl' hl indent]

end

/-- Every rendering ends in the two characters `>` and newline. -/
theorem Tag.html_ends (t : Tag) (indent : PyStr) :
    ∃ s, Tag.html t indent = s ++ ['>', '\n'] := by
  cases t with
  | mk name attributes text children =>
    simp only [Tag.html]
    split
    · exact ⟨_, (List.append_assoc _ _ _)⟩
    · exact ⟨_, (List.append_assoc _ _ _)⟩

/-- A list ending in `['>', '\n']` ends with exactly one newline. -/
theorem ends_gt_newline {x s : PyStr} (h : x = s ++ ['>', '\n']) :
    ['\n'] <:+ x ∧ ¬ (['\n', '\n'] <:+ x) := by
  subst h
  constructor
  · exact ⟨s ++ ['>'], by simp⟩
  · rintro ⟨p, hp⟩
    have := congrArg List.reverse hp
    simp only [List.reverse_append] at this
    simp at this

/-- A replacement whose pattern does not occur leaves the string unchanged. -/
theorem pyReplGo_id (p rep : PyStr) (fuel : Nat) :
    ∀ l : PyStr, ¬ (p <:+: l) → pyReplGo p rep fuel l = l := by
  induction fuel with
  | zero => intro l _; rfl
  | succ fuel ih =>
    intro l h
    cases l with
    | nil => rfl
    | cons c rest =>
      cases p with
      | nil => rfl
      | cons q qs =>
        have hrest : ¬ ((q :: qs) <:+: rest) := by
          intro hinf
          obtain ⟨u, v, huv⟩ := hinf
          exact h ⟨c :: u, v, by rw [← huv]; simp⟩
        simp only [pyReplGo]
        rw [if_neg, ih rest hrest]
        intro hpre
        obtain ⟨w, hw⟩ := hpre
        exact h ⟨[], w, by simpa using hw⟩

/-- `pyRepl` is the identity when the pattern does not occur. -/
theorem pyRepl_id {p : PyStr} (rep : PyStr) {l : PyStr} (h : ¬ (p <:+: l)) :
    pyRepl l p rep = l :=
  pyReplGo_id p rep l.length l h

/-- The comment-collapsing pass is the identity when no `<!--` occurs. -/
theorem fixCommentsGo_id (fuel : Nat) :
    ∀ l : PyStr, ¬ ("<!--".data <:+: l) → fixCommentsGo fuel l = l := by
  induction fuel with
  | zero => intro l _; rfl
  | succ fuel ih =>
    intro l h
    cases l with
    | nil => rfl
    | cons c rest =>
      have hrest : ¬ ("<!--".data <:+: rest) := by
        intro hinf
        obtain ⟨u, v, huv⟩ := hinf
        exact h ⟨c :: u, v, by rw [← huv]; simp⟩
      simp only [fixCommentsGo]
      rw [if_neg, ih rest hrest]
      intro hpre
      obtain ⟨w, hw⟩ := hpre
      exact h ⟨[], w, by simpa using hw⟩

/-- The vehicleTypeConfigurations pass is the identity when no `<!--`
occurs (its opening literal starts with `<!--`). -/
theorem fixVtcGo_id (fuel : Nat) :
    ∀ (b : Bool) (l : PyStr), ¬ ("<!--".data <:+: l) → fixVtcGo fuel b l = l := by
  induction fuel with
  | zero => intro b l _; rfl
  | succ fuel ih =>
    intro b l h
    cases l with
    | nil => rfl
    | cons c rest =>
      have hrest : ¬ ("<!--".data <:+: rest) := by
        intro hinf
        obtain ⟨u, v, huv⟩ := hinf
        exact h ⟨c :: u, v, by rw [← huv]; simp⟩
      simp only [fixVtcGo]
      rw [if_neg, ih _ rest hrest]
      rintro ⟨-, hpre⟩
      obtain ⟨w, hw⟩ := hpre
      refine h ⟨[], "<vehicleTypeConfigurations>".data ++ w, ?_⟩
      rw [← hw]
      simp [vtcOpen]

/-!
## Concrete fixtures used by witnesses and counterexamples
-/

/-- A mod with an empty descriptor and empty archive. -/
def m0 : Mod :=
  { modDesc := Elem.mk "modDesc" [] none [], zip := [], fsFiles := [], data_store := "" }

/-- A `title` node with an English child carrying text. -/
def titleEn : Elem := Elem.mk "title" [] none [Elem.mk "en" [] (some "Hello") []]

/-- A `title` node with no language child and no text of its own. -/
def titleBare : Elem := Elem.mk "title" [] none []

/-- A mod whose `l10n` element declares a `filenamePrefix` while the
auxiliary file `loc_en.xml` is missing from the archive. -/
def mAux : Mod :=
  { modDesc := Elem.mk "modDesc" [] none [Elem.mk "l10n" [("filenamePrefix", "loc")] none []],
    zip := [], fsFiles := [], data_store := "" }

/-- A well-formed store item document (category and name resolvable). -/
def itemXml : Elem :=
  Elem.mk "vehicle" [] none
    [Elem.mk "storeData" [] none
      [Elem.mk "category" [] (some "tractors") [],
       Elem.mk "name" [] (some "A Tractor") []]]

/-- A mod whose archive holds one readable store item document. -/
def mStore : Mod :=
  { modDesc := Elem.mk "modDesc" [] none [],
    zip := [("good.xml", ZEntry.xmlFile itemXml)], fsFiles := [], data_store := "" }

/-- A descriptor with title, icon, author and version but no `description`
element; its archive holds the icon. -/
def mNoDescr : Mod :=
  { modDesc := Elem.mk "modDesc" [] none
      [Elem.mk "title" [] none [Elem.mk "en" [] (some "T") []],
       Elem.mk "iconFilename" [] (some "icon.png") [],
       Elem.mk "author" [] (some "A") [],
       Elem.mk "version" [] (some "1") []],
    zip := [("icon.png", ZEntry.rawFile)], fsFiles := [],
    data_store := "D:/FS17/data/store" }

/-!
## C1: language-priority order of `Mod.l10n`
-/

/-- C1 counterexample: on a present node whose candidate yields no text (no
language child, no own text), `Mod.l10n` does not return the empty string as
the claim states; it raises `AttributeError` (`None.startswith`). -/
theorem l10n_empty_candidate_counterexample :
    Mod.l10n 1 m0 (some titleBare) = Except.error PyErr.attributeError ∧
    Mod.l10n 1 m0 (some titleBare) ≠ Except.ok "" :=
  ⟨rfl, by decide⟩

/-- C1 (amended): with no indirect localisation key, `Mod.l10n` returns the
first present language child's text (`en`, then `de`, then `fr`) verbatim,
else the node's own text; an absent node yields `''`; but when the selected
candidate has no text the call fails with `AttributeError` instead of
returning `''`. -/
theorem l10n_fallback_order (fuel : Nat) (m : Mod) (n : Elem) :
    (Mod.l10n (fuel + 1) m none = Except.ok "") ∧
    (∀ s t, Elem.find n "en" = some s → Elem.text s = some t →
      pyStartsWith t "$l10n_" = false →
      Mod.l10n (fuel + 1) m (some n) = Except.ok t) ∧
    (∀ s t, Elem.find n "en" = none → Elem.find n "de" = some s →
      Elem.text s = some t → pyStartsWith t "$l10n_" = false →
      Mod.l10n (fuel + 1) m (some n) = Except.ok t) ∧
    (∀ s t, Elem.find n "en" = none → Elem.find n "de" = none →
      Elem.find n "fr" = some s → Elem.text s = some t →
      pyStartsWith t "$l10n_" = false →
      Mod.l10n (fuel + 1) m (some n) = Except.ok t) ∧
    (∀ t, Elem.find n "en" = none → Elem.find n "de" = none →
      Elem.find n "fr" = none → Elem.text n = some t →
      pyStartsWith t "$l10n_" = false →
      Mod.l10n (fuel + 1) m (some n) = Except.ok t) ∧
    (∀ s, Elem.find n "en" = some s → Elem.text s = none →
      Mod.l10n (fuel + 1) m (some n) = Except.error PyErr.attributeError) ∧
    (Elem.find n "en" = none → Elem.find n "de" = none →
      Elem.find n "fr" = none → Elem.text n = none →
      Mod.l10n (fuel + 1) m (some n) = Except.error PyErr.attributeError) := by
  refine ⟨rfl, ?_, ?_, ?_, ?_, ?_, ?_⟩
  · intro s t h1 h2 h3
    simp only [Mod.l10n, h1, h2, h3]
    rfl
  · intro s t h1 h2 h3 h4
    simp only [Mod.l10n, h1, h2, h3, h4]
    rfl
  · intro s t h1 h2 h3 h4 h5
    simp only [Mod.l10n, h1, h2, h3, h4, h5]
    rfl
  · intro t h1 h2 h3 h4 h5
    simp only [Mod.l10n, h1, h2, h3, h4, h5]
    rfl
  · intro s h1 h2
    simp only [Mod.l10n, h1, h2]
  · intro h1 h2 h3 h4
    simp only [Mod.l10n, h1, h2, h3, h4]

/-- C1 witness: the English child's text is returned verbatim. -/
theorem l10n_fallback_order_witness :
    Mod.l10n 1 m0 (some titleEn) = Except.ok "Hello" :=
  (l10n_fallback_order 0 m0 titleEn).2.1 (Elem.mk "en" [] (some "Hello") []) "Hello"
    rfl rfl rfl

/-!
## C7: graceful "no match" of `Mod._l10n`
-/

/-- C7 counterexample: with a declared `filenamePrefix` and the auxiliary
file absent from the archive, `Mod._l10n` raises `KeyError`
(`self.ZipFile.read`) instead of returning the key text unchanged. -/
theorem l10n_ind_missing_aux_counterexample :
    Mod.l10n_ind 2 mAux "$l10n_foo" = Except.error PyErr.keyError ∧
    Mod.l10n_ind 2 mAux "$l10n_foo" ≠ Except.ok "$l10n_foo" :=
  ⟨rfl, by decide⟩

/-- C7 (amended): when the inline scan falls through, `Mod._l10n` returns the
original key text unchanged if the `l10n` element is absent, or declares no
`filenamePrefix`, or the auxiliary document is present, parses and also has
no match; but a declared `filenamePrefix` whose auxiliary file is missing
raises `KeyError` (covered by the counterexample), it is not a graceful
"no match". -/
theorem l10n_ind_graceful_no_match (fuel : Nat) (m : Mod) (text : String)
    (hinl : scanByName (pyReplace text "$l10n_" "")
      (Elem.findall m.modDesc "l10n" "text") = Except.ok none) :
    (Elem.find m.modDesc "l10n" = none →
      Mod.l10n_ind (fuel + 1) m text = Except.ok text) ∧
    (∀ l, Elem.find m.modDesc "l10n" = some l →
      Elem.getAttr l "filenamePrefix" = none →
      Mod.l10n_ind (fuel + 1) m text = Except.ok text) ∧
    (∀ l p ax, Elem.find m.modDesc "l10n" = some l →
      Elem.getAttr l "filenamePrefix" = some p →
      Mod.zipEntry m (p ++ "_en.xml") = some (ZEntry.xmlFile ax) →
      scanAuxTexts (pyReplace text "$l10n_" "")
        (Elem.findall ax "texts" "text") = Except.ok none →
      Mod.l10n_ind (fuel + 1) m text = Except.ok text) := by
  refine ⟨?_, ?_, ?_⟩
  · intro h1
    simp only [Mod.l10n_ind, hinl, h1]
  · intro l h1 h2
    simp only [Mod.l10n_ind, hinl, h1, h2]
  · intro l p ax h1 h2 h3 h4
    simp only [Mod.l10n_ind, hinl, h1, h2, h3, h4]

/-- C7 witness: with no `l10n` element at all, the key text comes back
unchanged. -/
theorem l10n_ind_graceful_no_match_witness :
    Mod.l10n_ind 1 m0 "$l10n_x" = Except.ok "$l10n_x" :=
  (l10n_ind_graceful_no_match 0 m0 "$l10n_x" rfl).1 rfl

/-!
## C9: the extracted title and its fallback
-/

/-- C9 counterexample: the script-level `get_mod_title` falls back to
`'NONE'`, not `'UNKNOWN'`, when the `title` element is absent. -/
theorem script_title_fallback_counterexample :
    get_mod_title_script (Elem.mk "modDesc" [] none []) = some "NONE" ∧
    get_mod_title_script (Elem.mk "modDesc" [] none []) ≠ some "UNKNOWN" :=
  ⟨rfl, by decide⟩

/-- C9 (amended): `Mod._get_mod_title` never yields the empty string and maps
an empty localisation result to `'UNKNOWN'`; the script-level variant instead
yields `'NONE'` for an absent `title` element. -/
theorem title_fallback_unknown (fuel : Nat) (m : Mod) (d : Elem) :
    (∀ t, Mod.get_mod_title fuel m = Except.ok t → t ≠ "") ∧
    (Mod.l10n fuel m (Elem.find m.modDesc "title") = Except.ok "" →
      Mod.get_mod_title fuel m = Except.ok "UNKNOWN") ∧
    (Elem.find d "title" = none → get_mod_title_script d = some "NONE") := by
  refine ⟨?_, ?_, ?_⟩
  · intro t h
    unfold Mod.get_mod_title at h
    cases hl : Mod.l10n fuel m (Elem.find m.modDesc "title") with
    | error e => rw [hl] at h; cases h
    | ok v =>
      rw [hl] at h
      by_cases hv : v = ""
      · simp only [hv, if_pos rfl, Except.ok.injEq] at h
        rw [← h]
        decide
      · simp only [if_neg hv, Except.ok.injEq] at h
        rw [← h]
        exact hv
  · intro h
    simp [Mod.get_mod_title, h]
  · intro h
    simp only [get_mod_title_script, h]

/-- C9 witness: an empty localisation result yields `'UNKNOWN'`. -/
theorem title_fallback_unknown_witness :
    Mod.get_mod_title 1 m0 = Except.ok "UNKNOWN" :=
  (title_fallback_unknown 1 m0 (Elem.mk "x" [] none [])).2.1 rfl

/-!
## C5: isolation of store-item failures
-/

/-- C5: a store-item reference whose read, decode or parse fails contributes
nothing; the remaining items are processed exactly as if the failing
reference were not listed, in order. -/
theorem store_item_failure_skips_one (fuel : Nat) (m : Mod) (b : String)
    (pre post : List String)
    (hb : Mod.zipEntry m b = none ∨ Mod.zipEntry m b = some ZEntry.badBytes ∨
      Mod.zipEntry m b = some ZEntry.badXml ∨ Mod.zipEntry m b = some ZEntry.rawFile) :
    Mod.loadStoreItems fuel m (pre ++ b :: post)
      = Mod.loadStoreItems fuel m (pre ++ post) := by
  induction pre with
  | nil =>
    rcases hb with h | h | h | h <;> simp [Mod.loadStoreItems, h]
  | cons p pre ih =>
    cases hq : Mod.zipEntry m p with
    | none => simpa only [List.cons_append, Mod.loadStoreItems, hq] using ih
    | some z =>
      cases z <;> simp only [List.cons_append, Mod.loadStoreItems, hq, List.append_eq] <;>
        rw [ih]

/-- C5 witness: a missing member is skipped and the good item before it is
still processed. -/
theorem store_item_failure_skips_one_witness :
    Mod.loadStoreItems 2 mStore ["good.xml", "missing.xml"]
      = Mod.loadStoreItems 2 mStore ["good.xml"] :=
  store_item_failure_skips_one 2 mStore "missing.xml" ["good.xml"] [] (Or.inl rfl)

/-!
## C6: required fields of `Mod.load`
-/

/-- C6 counterexample: a descriptor with author and version present but no
`description` element does not degrade gracefully; `Mod.load` fails with
`AttributeError` (`None.find('./en')`). -/
theorem load_missing_description_counterexample :
    (Elem.find mNoDescr.modDesc "author").isSome = true ∧
    (Elem.find mNoDescr.modDesc "version").isSome = true ∧
    (Elem.find mNoDescr.modDesc "description").isSome = false ∧
    Mod.load 3 mNoDescr = Except.error PyErr.attributeError :=
  ⟨rfl, rfl, rfl, rfl⟩

/-- C6 (amended): extraction fails whenever the `author` or the `version`
element is absent (an `AttributeError` from `find(...).text`, the code's
realisation of the spec's MissingRequiredFieldError); but not every other
absent field degrades gracefully: an absent `description` (or `iconFilename`)
also aborts extraction, as the counterexample shows. -/
theorem load_fails_without_author_version (fuel : Nat) (m : Mod)
    (h : Elem.find m.modDesc "author" = none ∨ Elem.find m.modDesc "version" = none) :
    ∃ e, Mod.load fuel m = Except.error e := by
  unfold Mod.load
  cases ht : Mod.get_mod_title fuel m with
  | error e => exact ⟨e, by simp [ht]⟩
  | ok title =>
    cases hi : Mod.find_icon fuel m with
    | error e => exact ⟨e, by simp [ht, hi]⟩
    | ok icon =>
      rcases h with h | h
      · exact ⟨PyErr.attributeError, by simp [ht, hi, h]⟩
      · cases ha : Elem.find m.modDesc "author" with
        | none => exact ⟨PyErr.attributeError, by simp [ht, hi, ha]⟩
        | some a => exact ⟨PyErr.attributeError, by simp [ht, hi, ha, h]⟩

/-- C6 witness: an empty descriptor (author absent) fails to load. -/
theorem load_fails_without_author_version_witness :
    ∃ e, Mod.load 2 m0 = Except.error e :=
  load_fails_without_author_version 2 m0 (Or.inl rfl)

/-!
## C2: the icon locator's retry order
-/

/-- C2 counterexample: for a declared `.png` path absent from the archive but
present on the filesystem, the locator succeeds from the filesystem with the
original name; the `.dds`-substituted name is never probed in the archive, so
the archive probe of the substituted name does not precede the filesystem
lookup as the claim states. -/
theorem find_icon_order_counterexample :
    find_icon_loop [] ["icon.png"] 2 "icon.png"
      = ([Attempt.arch "icon.png", Attempt.fs "icon.png"],
         Except.ok (Attempt.fs "icon.png")) ∧
    Attempt.arch "icon.dds" ∉ (find_icon_loop [] ["icon.png"] 2 "icon.png").1 := by
  exact ⟨rfl, by decide⟩

/-- C2 (amended): for each candidate name in order — the declared name, then
the `.dds`-substituted name when the declared name ends in `.png` — the
locator probes the archive and then the filesystem for that name, and raises
`KeyError` only after both sources have been exhausted for all applicable
variants. -/
theorem find_icon_exhausts_variants (f : Nat) (arch fs : List String) (n : String)
    (h1 : arch.contains n = false) (h2 : fs.contains n = false) :
    (pyEndsWith n ".png" = false →
      find_icon_loop arch fs (f + 1) n
        = ([Attempt.arch n, Attempt.fs n], Except.error PyErr.keyError)) ∧
    (pyEndsWith n ".png" = true →
      arch.contains (pyReplace n ".png" ".dds") = false →
      fs.contains (pyReplace n ".png" ".dds") = false →
      pyEndsWith (pyReplace n ".png" ".dds") ".png" = false →
      find_icon_loop arch fs (f + 2) n
        = ([Attempt.arch n, Attempt.fs n,
            Attempt.arch (pyReplace n ".png" ".dds"),
            Attempt.fs (pyReplace n ".png" ".dds")],
           Except.error PyErr.keyError)) := by
  constructor
  · intro h3
    simp only [find_icon_loop, get_icon, h1, h2, h3]
    rfl
  · intro h3 h4 h5 h6
    simp only [find_icon_loop, get_icon, h1, h2, h3, h4, h5, h6]
    rfl

/-- C2 witness: a `.png` name found nowhere is retried as `.dds` and then
fails. -/
theorem find_icon_exhausts_variants_witness :
    find_icon_loop [] [] 2 "icon.png"
      = ([Attempt.arch "icon.png", Attempt.fs "icon.png",
          Attempt.arch (pyReplace "icon.png" ".png" ".dds"),
          Attempt.fs (pyReplace "icon.png" ".png" ".dds")],
         Except.error PyErr.keyError) :=
  (find_icon_exhausts_variants 0 [] [] "icon.png" rfl rfl).2 rfl rfl rfl rfl

/-!
## C3: idempotence of the repair function
-/

/-- C3 counterexample: `repair` is not idempotent on every string — the
`partOfEconomy="true"` rule appends one more space on each application. -/
theorem fix_xml_not_idempotent_counterexample :
    fix_xml "partOfEconomy=\"true\"" = "partOfEconomy=\"true\" " ∧
    fix_xml (fix_xml "partOfEconomy=\"true\"") = "partOfEconomy=\"true\"  " ∧
    fix_xml (fix_xml "partOfEconomy=\"true\"") ≠ fix_xml "partOfEconomy=\"true\"" := by
  refine ⟨by decide, by decide, by decide⟩

/-- C3 (amended): `repair` is not idempotent for arbitrary strings (see the
counterexample); it is the identity — and hence idempotent — on every string
that contains none of the catalogued corruption patterns and no comment
opener. -/
theorem fix_xml_idempotent_on_clean (s : String)
    (h1 : ¬ (" & ".data <:+: s.data))
    (h2 : ¬ ("Fill--and".data <:+: s.data))
    (h3 : ¬ ("partOfEconomy=\"true\"".data <:+: s.data))
    (h4 : ¬ ("\"configFilename=".data <:+: s.data))
    (h5 : ¬ ("\"baleTypesDirectory=".data <:+: s.data))
    (h6 : ¬ ("Bressel&Lade".data <:+: s.data))
    (h7 : ¬ ("and enjoy.]]></de>".data <:+: s.data))
    (h8 : ¬ ("\"endTransLimit=\"".data <:+: s.data))
    (h9 : ¬ ("\"translationActive=\"".data <:+: s.data))
    (h10 : ¬ ("\"scaleActive=\"".data <:+: s.data))
    (h11 : ¬ ("\"playSound=\"".data <:+: s.data))
    (h12 : ¬ ("\"rotationActive=\"".data <:+: s.data))
    (h13 : ¬ ("\"visibilityActive=\"".data <:+: s.data))
    (h14 : ¬ ("\"index=\"".data <:+: s.data))
    (h15 : ¬ ("<function>https://www.facebook.com/ETA-La-Marchoise-318371215013344/?ref=ts&fref=ts</function>".data <:+: s.data))
    (h16 : ¬ ("-- aanimazioni tubi --".data <:+: s.data))
    (h17 : ¬ ("<!--".data <:+: s.data)) :
    fix_xml s = s ∧ fix_xml (fix_xml s) = fix_xml s := by
  have hcore : fixXmlChars s.data = s.data := by
    simp only [fixXmlChars]
    rw [pyRepl_id _ h1, pyRepl_id _ h2, pyRepl_id _ h3, pyRepl_id _ h4,
      pyRepl_id _ h5, pyRepl_id _ h6, pyRepl_id _ h7, pyRepl_id _ h8,
      pyRepl_id _ h9, pyRepl_id _ h10, pyRepl_id _ h11, pyRepl_id _ h12,
      pyRepl_id _ h13, pyRepl_id _ h14, pyRepl_id _ h15, pyRepl_id _ h16]
    unfold fixVtc fixComments
    rw [fixVtcGo_id _ _ _ h17, fixCommentsGo_id _ _ h17]
  have h0 : fix_xml s = s := by
    unfold fix_xml
    rw [hcore]
  exact ⟨h0, by rw [h0, h0]⟩

/-- C3 witness: a clean string is a fixed point of `repair`. -/
theorem fix_xml_idempotent_on_clean_witness :
    fix_xml "hello" = "hello" ∧ fix_xml (fix_xml "hello") = fix_xml "hello" :=
  fix_xml_idempotent_on_clean "hello" (by decide) (by decide) (by decide)
    (by decide) (by decide) (by decide) (by decide) (by decide) (by decide)
    (by decide) (by decide) (by decide) (by decide) (by decide) (by decide)
    (by decide) (by decide)

/-!
## C4: deterministic, insertion-order-insensitive serialization
-/

/-- C4: serialization is deterministic and attribute-order insensitive:
structurally identical trees whose attribute dicts were built in different
insertion orders (unique keys, as Python dicts guarantee) serialize to
byte-identical output, because attributes are emitted sorted by name. -/
theorem html_insertion_order_independent (t₁ t₂ : Tag) (indent : PyStr)
    (hwf : Tag.WF t₁) (heq : TagEquiv t₁ t₂) :
    Tag.html t₁ indent = Tag.html t₂ indent :=
  Tag.html_equiv_aux t₁ t₂ hwf heq indent

/-- C4 witness: the same two attributes inserted in opposite orders produce
the same bytes. -/
theorem html_insertion_order_independent_witness :
    Tag.html (Tag.mk "div".data [("id".data, "x".data), ("class".data, "y".data)]
        none []) []
      = Tag.html (Tag.mk "div".data [("class".data, "y".data), ("id".data, "x".data)]
        none []) [] :=
  html_insertion_order_independent _ _ []
    (Tag.WF.mk (by decide) Tag.WFList.nil)
    (TagEquiv.mk (by decide) TagEquivList.nil)

/-!
## C8: self-closing of childless, textless elements
-/

/-- C8 counterexample: a `br` element with no text and no children renders as
the lone open tag `<br>` followed by a newline — not as an open/close pair:
no `</` occurs in the rendering. -/
theorem br_open_close_counterexample :
    Tag.html (Tag.mk ['b', 'r'] [] none []) [] = "<br>\n".data ∧
    ¬ (['<', '/'] <:+: Tag.html (Tag.mk ['b', 'r'] [] none []) []) := by
  exact ⟨rfl, by decide⟩

/-- C8 (amended): an element with no text and no children renders
self-closed (`<name .../>`), except the name `br`, which renders as a lone
open tag `<br ...>` with no closing tag. -/
theorem selfclose_except_br (name : PyStr) (attributes : List (PyStr × PyStr))
    (indent : PyStr) :
    (name ≠ ['b', 'r'] →
      Tag.html (Tag.mk name attributes none []) indent
        = (if 0 < attributes.length then attrsOut attributes (indent ++ ['<'] ++ name)
           else indent ++ ['<'] ++ name) ++ ['/'] ++ ['>'] ++ LINEBR) ∧
    (Tag.html (Tag.mk ['b', 'r'] attributes none []) indent
      = (if 0 < attributes.length then attrsOut attributes (indent ++ ['<'] ++ ['b', 'r'])
         else indent ++ ['<'] ++ ['b', 'r']) ++ ['>'] ++ LINEBR) := by
  constructor
  · intro hn
    simp only [Tag.html, Option.isSome_none, List.isEmpty_nil, Bool.not_true,
      Bool.or_false, Bool.false_or, if_pos hn]
    rfl
  · simp only [Tag.html]
    rfl

/-- C8 witness: a childless, textless `hr` element renders self-closed. -/
theorem selfclose_except_br_witness :
    Tag.html (Tag.mk ['h', 'r'] [] none []) []
      = (if 0 < ([] : List (PyStr × PyStr)).length
         then attrsOut [] ([] ++ ['<'] ++ ['h', 'r'])
         else [] ++ ['<'] ++ ['h', 'r']) ++ ['/'] ++ ['>'] ++ LINEBR :=
  (selfclose_except_br ['h', 'r'] [] []).1 (by decide)

/-!
## C10: one trailing newline per rendering
-/

/-- C10: every rendering, for every tree and every indent prefix, ends with
exactly one trailing newline (it ends in `>` then newline), so concatenating
consecutive sibling renderings yields one-per-line output. -/
theorem html_single_trailing_newline (t : Tag) (indent : PyStr) :
    ['\n'] <:+ Tag.html t indent ∧ ¬ (['\n', '\n'] <:+ Tag.html t indent) := by
  obtain ⟨s, hs⟩ := Tag.html_ends t indent
  exact ends_gt_newline hs

end FS17
